import Mathlib

/-!
Shallow embedding of the ng-image-canvas Angular component
(`src/lib/ng-image-canvas.component.ts` together with
`utils/draggable-image.ts` and the module file).

Geometry is modelled over `ℚ` (the component works on JavaScript numbers;
all the arithmetic in the component is `+`, `-`, `*`, `/`, `min`, `max`
and comparisons, so exact rational arithmetic is the faithful idealisation).
The mutable component fields become a `CanvasState` record and every event
handler becomes a state-transforming function.  Rendering is modelled by a
draw counter that `drawImages` bumps when the 2D context is available, the
`imagesChange` output emitter by an emit counter, and a synchronously thrown
`TypeError` (reading a property of `undefined`, or handing `undefined` to
`FileReader.readAsDataURL`) by stopping the handler at the throw point, i.e.
leaving exactly the mutations performed before the throw.
-/

/-- The `DraggableImage` interface of `utils/draggable-image.ts`: position,
current rendered size, the transient resize flag and the size snapshot taken
at resize-gesture start (`isResizing`, `initialWidth`, `initialHeight` are
optional fields, absent until a gesture sets them). The `img` bitmap handle
is opaque to all the logic the claims are about and is omitted. -/
structure DraggableImage where
  x : ℚ
  y : ℚ
  width : ℚ
  height : ℚ
  isResizing : Bool := false
  initialWidth : Option ℚ := none
  initialHeight : Option ℚ := none
  deriving DecidableEq, Repr, Inhabited

/-- The mutable state of `CanvasComponent`: the `@Input()` configuration
fields (`width`, `height`, `editing`, `resizeHandleSize`, `closeButtonSize`;
the three colour inputs only affect pixel output and are omitted), the
private fields `images`, `selectedImageIndex` (JavaScript `number | null`,
modelled as `Option Int` because `findIndex` can store `-1`), `offsetX`,
`offsetY`, `isDragging`, `isShiftPressed`, plus observation counters:
`ctxInit` records whether `ngOnInit` has installed the 2D context,
`drawCount` counts actual redraws and `emitCount` counts
`imagesChange.emit` calls. -/
structure CanvasState where
  width : ℚ
  height : ℚ
  editing : Bool
  resizeHandleSize : ℚ
  closeButtonSize : ℚ
  images : List DraggableImage
  selectedImageIndex : Option Int
  offsetX : ℚ
  offsetY : ℚ
  isDragging : Bool
  isShiftPressed : Bool
  ctxInit : Bool
  drawCount : Nat
  emitCount : Nat
  deriving DecidableEq, Repr

/-- The construction state of the component before any lifecycle hook runs:
input defaults `width = 800`, `height = 600`, `editing = true`,
`resizeHandleSize = 10`, `closeButtonSize = 20` are the caller-supplied
parameters, `images = []`, no selection, no drag, no Shift, no context. -/
def initState (W H rh cb : ℚ) : CanvasState :=
  { width := W, height := H, editing := true,
    resizeHandleSize := rh, closeButtonSize := cb,
    images := [], selectedImageIndex := none,
    offsetX := 0, offsetY := 0,
    isDragging := false, isShiftPressed := false,
    ctxInit := false, drawCount := 0, emitCount := 0 }

/-- `drawImages()`: early-returns when `this.ctx == null`, otherwise clears
and redraws the surface.  Only the fact that a redraw happened is
observable to the claims, recorded in `drawCount`. -/
def drawImages (s : CanvasState) : CanvasState :=
  if s.ctxInit then { s with drawCount := s.drawCount + 1 } else s

/-- `emitImagesChange()`: fires the `imagesChange` output with the current
image list; modelled by bumping `emitCount`. -/
def emitImagesChange (s : CanvasState) : CanvasState :=
  { s with emitCount := s.emitCount + 1 }

/-- `ngOnInit()`: sizes the canvas, installs the 2D rendering context and
draws the (initially empty) image list. -/
def ngOnInit (s : CanvasState) : CanvasState :=
  drawImages { s with ctxInit := true }

/-- `resetInteractions()`: clears the selected index and the dragging flag
and stops resizing for every image. -/
def resetInteractions (s : CanvasState) : CanvasState :=
  { s with selectedImageIndex := none, isDragging := false,
           images := s.images.map (fun img => { img with isResizing := false }) }

/-- `ngOnChanges` in the case the `editing` input changed: Angular has
already written the new value into `this.editing` before the hook runs;
the hook then calls `resetInteractions()` and `drawImages()`. -/
def ngOnChanges (s : CanvasState) (newEditing : Bool) : CanvasState :=
  drawImages (resetInteractions { s with editing := newEditing })

/-- The close-button bounds test of the first `findIndex` in
`onMouseDown`: the square of side `closeButtonSize` anchored at the
image's top-right corner, with inclusive `>=`/`<=` comparisons exactly as
in the source. -/
def inCloseBounds (cb : ℚ) (img : DraggableImage) (px py : ℚ) : Prop :=
  img.x + img.width - cb ≤ px ∧ px ≤ img.x + img.width - cb + cb ∧
  img.y ≤ py ∧ py ≤ img.y + cb

instance (cb : ℚ) (img : DraggableImage) (px py : ℚ) :
    Decidable (inCloseBounds cb img px py) := by
  unfold inCloseBounds; infer_instance

/-- The `inImageBounds` test of the second `findIndex` in `onMouseDown`. -/
def inImageBounds (img : DraggableImage) (px py : ℚ) : Prop :=
  img.x ≤ px ∧ px ≤ img.x + img.width ∧
  img.y ≤ py ∧ py ≤ img.y + img.height

instance (img : DraggableImage) (px py : ℚ) :
    Decidable (inImageBounds img px py) := by
  unfold inImageBounds; infer_instance

/-- The `inResizeBounds` test of the second `findIndex` in `onMouseDown`:
the square of side `resizeHandleSize` anchored at the image's bottom-right
corner. -/
def inResizeBounds (rh : ℚ) (img : DraggableImage) (px py : ℚ) : Prop :=
  img.x + img.width - rh ≤ px ∧ px ≤ img.x + img.width ∧
  img.y + img.height - rh ≤ py ∧ py ≤ img.y + img.height

instance (rh : ℚ) (img : DraggableImage) (px py : ℚ) :
    Decidable (inResizeBounds rh img px py) := by
  unfold inResizeBounds; infer_instance

/-- The side effect the second `findIndex` callback performs on an image
whose resize bounds contain the pointer: `img.isResizing = true;
img.initialWidth = img.width; img.initialHeight = img.height`. -/
def markResize (img : DraggableImage) : DraggableImage :=
  { img with isResizing := true,
             initialWidth := some img.width, initialHeight := some img.height }

/-- The first `findIndex` of `onMouseDown` (close-button hit test): a pure
first-match search in sequence order; `none` models the JavaScript `-1`. -/
def findCloseIdx (cb px py : ℚ) : List DraggableImage → Option Nat
  | [] => none
  | img :: rest =>
    if inCloseBounds cb img px py then some 0
    else (findCloseIdx cb px py rest).map (· + 1)

/-- The second `findIndex` of `onMouseDown` (body / resize-handle test),
including its side effect: the callback marks every scanned image whose
resize bounds contain the pointer via `markResize` and stops at the first
image whose body bounds contain the pointer.  Returns the updated list and
the found index (`none` models `-1`); images after the first body match are
not scanned, images before it (and all images, when there is no match) are
scanned and possibly marked. -/
def scanMark (rh px py : ℚ) : List DraggableImage → List DraggableImage × Option Nat
  | [] => ([], none)
  | img :: rest =>
    let img' := if inResizeBounds rh img px py then markResize img else img
    if inImageBounds img px py then (img' :: rest, some 0)
    else
      let r := scanMark rh px py rest
      (img' :: r.1, r.2.map (· + 1))

/-- `onMouseDown(event)`: no-op when editing is disabled; otherwise the
close-button pass (on a hit: `splice` the image out, null the selection,
redraw, emit, return), then the body/resize pass via `scanMark`; on a body
hit it records the selection and the pointer-to-image offset and sets
`isDragging`; on no hit `selectedImageIndex` is left holding the
`findIndex` result `-1`. -/
def onMouseDown (s : CanvasState) (px py : ℚ) : CanvasState :=
  if s.editing = false then s
  else
    match findCloseIdx s.closeButtonSize px py s.images with
    | some j =>
        emitImagesChange (drawImages
          { s with images := s.images.eraseIdx j, selectedImageIndex := none })
    | none =>
        let r := scanMark s.resizeHandleSize px py s.images
        match r.2 with
        | some i =>
            let img := r.1.getD i default
            { s with images := r.1, selectedImageIndex := some (i : Int),
                     offsetX := px - img.x, offsetY := py - img.y,
                     isDragging := true }
        | none => { s with images := r.1, selectedImageIndex := some (-1) }

/-- `onMouseMove(event)`: no-op when `selectedImageIndex` is `null`.  With a
selection, `this.images[this.selectedImageIndex]` is read: when the index is
`-1` (or stale past the end of the list) that read yields `undefined` and
`img.isResizing` throws a TypeError before any mutation, so the state is
unchanged.  Otherwise: in resize mode, Shift derives the height from the
frozen aspect ratio of the floored width, no Shift floors both axes at 10;
in drag mode both coordinates are clamped into
`[0, surfaceDimension - imageDimension]`; in either case (also when neither
mode is active) the handler redraws. -/
def onMouseMove (s : CanvasState) (px py : ℚ) : CanvasState :=
  match s.selectedImageIndex with
  | none => s
  | some i =>
    if 0 ≤ i ∧ i.toNat < s.images.length then
      let img := s.images.getD i.toNat default
      if img.isResizing then
        let iw := img.initialWidth.getD 0
        let ih := img.initialHeight.getD 0
        let aspect := iw / ih
        if s.isShiftPressed then
          let newWidth := max 10 (iw + (px - img.x - iw))
          let newHeight := newWidth / aspect
          let img' := { img with width := newWidth, height := newHeight }
          drawImages { s with images := s.images.set i.toNat img' }
        else
          let img' := { img with width := max 10 (iw + (px - img.x - iw)),
                                 height := max 10 (ih + (py - img.y - ih)) }
          drawImages { s with images := s.images.set i.toNat img' }
      else if s.isDragging then
        let img' := { img with x := min (max 0 (px - s.offsetX)) (s.width - img.width),
                               y := min (max 0 (py - s.offsetY)) (s.height - img.height) }
        drawImages { s with images := s.images.set i.toNat img' }
      else drawImages s
    else s

/-- `onMouseUp()`: with a selection the handler writes
`img.isResizing = false` on `this.images[this.selectedImageIndex]` — when
that index is `-1` (or stale) the write throws a TypeError and the two
trailing assignments never run, leaving the state unchanged; otherwise the
flag is cleared, then `selectedImageIndex = null` and `isDragging = false`. -/
def onMouseUp (s : CanvasState) : CanvasState :=
  match s.selectedImageIndex with
  | none => { s with selectedImageIndex := none, isDragging := false }
  | some i =>
    if 0 ≤ i ∧ i.toNat < s.images.length then
      let img := s.images.getD i.toNat default
      let img' := { img with isResizing := false }
      { s with images := s.images.set i.toNat img',
               selectedImageIndex := none, isDragging := false }
    else s

/-- `onKeyDown` for the Shift key. -/
def onKeyDownShift (s : CanvasState) : CanvasState :=
  { s with isShiftPressed := true }

/-- `onKeyUp` for the Shift key. -/
def onKeyUpShift (s : CanvasState) : CanvasState :=
  { s with isShiftPressed := false }

/-- `setImages(images)`: replaces the registry and redraws. -/
def setImages (s : CanvasState) (l : List DraggableImage) : CanvasState :=
  drawImages { s with images := l }

/-- `getImages()`. -/
def getImages (s : CanvasState) : List DraggableImage :=
  s.images

/-- The `DraggableImage` object literal built in `onDrop`'s `img.onload`
callback for a decoded bitmap of natural size `w0 × h0` on a surface of
size `W × H`: placed at the origin, `width = img.width <= this.width ?
img.width : 100`, `height = img.height <= this.height ? img.height :
img.height / img.width * 100`. -/
def initialPlacement (W H w0 h0 : ℚ) : DraggableImage :=
  { x := 0, y := 0,
    width := if w0 ≤ W then w0 else 100,
    height := if h0 ≤ H then h0 else h0 / w0 * 100 }

/-- Completion of a drop gesture (the asynchronous `reader.onload` /
`img.onload` chain firing after a successful decode of a bitmap of natural
size `w0 × h0`): pushes the computed placement, redraws and emits. -/
def dropComplete (s : CanvasState) (w0 h0 : ℚ) : CanvasState :=
  emitImagesChange (drawImages
    { s with images := s.images ++ [initialPlacement s.width s.height w0 h0] })

/-- The synchronous part of `onDrop(event)`.  `dt` models
`event.dataTransfer`: `none` for a null transfer (early return), `some
files` for a transfer whose `files` list has the given natural sizes.  The
handler never mutates the state synchronously (the mutation lives in the
asynchronous `dropComplete`).  The returned Boolean records whether the
handler threw: with editing enabled and an empty file list,
`event.dataTransfer.files[0]` is `undefined` and
`reader.readAsDataURL(undefined)` throws a TypeError. -/
def onDropSync (s : CanvasState) (dt : Option (List (ℚ × ℚ))) : CanvasState × Bool :=
  match dt with
  | none => (s, false)
  | some files =>
    if s.editing = false then (s, false)
    else (s, files.isEmpty)

/-- The operations that can hit a component instance: the lifecycle hooks,
the event handlers (with their pointer coordinates or decoded sizes), the
Shift tracker and the public `setImages`.  `sizeChange` is `ngOnChanges`
for the `width`/`height` inputs, whose handler body ignores them. -/
inductive Op where
  | init : Op
  | editingChange : Bool → Op
  | sizeChange : ℚ → ℚ → Op
  | dropSync : Option (List (ℚ × ℚ)) → Op
  | dropComplete : ℚ → ℚ → Op
  | mouseDown : ℚ → ℚ → Op
  | mouseMove : ℚ → ℚ → Op
  | mouseUp : Op
  | shiftDown : Op
  | shiftUp : Op
  | setImages : List DraggableImage → Op
  deriving DecidableEq, Repr

/-- Applies one operation to the component state. -/
def applyOp (s : CanvasState) : Op → CanvasState
  | Op.init => ngOnInit s
  | Op.editingChange b => ngOnChanges s b
  | Op.sizeChange w h => { s with width := w, height := h }
  | Op.dropSync dt => (onDropSync s dt).1
  | Op.dropComplete w0 h0 => dropComplete s w0 h0
  | Op.mouseDown px py => onMouseDown s px py
  | Op.mouseMove px py => onMouseMove s px py
  | Op.mouseUp => onMouseUp s
  | Op.shiftDown => onKeyDownShift s
  | Op.shiftUp => onKeyUpShift s
  | Op.setImages l => setImages s l

/-- Applies a sequence of operations in order. -/
def runOps (s : CanvasState) (ops : List Op) : CanvasState :=
  ops.foldl applyOp s

/-- The states a component instance can reach from its construction
state. -/
inductive Reachable (s₀ : CanvasState) : CanvasState → Prop
  | refl : Reachable s₀ s₀
  | step {s : CanvasState} (op : Op) : Reachable s₀ s → Reachable s₀ (applyOp s op)

/-! ### List helper lemmas over `getD` -/

theorem listGetD_set_self {α : Type} (l : List α) (j : Nat) (a d : α)
    (h : j < l.length) : (l.set j a).getD j d = a := by
  simp [List.getD, List.getElem?_set_self, h]

theorem listGetD_set_ne {α : Type} (l : List α) (i j : Nat) (a d : α)
    (h : j ≠ i) : (l.set i a).getD j d = l.getD j d := by
  simp [List.getD, List.getElem?_set_ne h.symm]

theorem listGetD_map {α β : Type} (l : List α) (j : Nat) (d : β) (e : α)
    (f : α → β) (h : j < l.length) : (l.map f).getD j d = f (l.getD j e) := by
  simp [List.getD, List.getElem?_map, List.getElem?_eq_getElem h]

theorem listGetD_append_left {α : Type} (l : List α) (a d : α) (j : Nat)
    (h : j < l.length) : (l ++ [a]).getD j d = l.getD j d := by
  simp [List.getD, List.getElem?_append_left h]

theorem listGetD_append_last {α : Type} (l : List α) (a d : α) :
    (l ++ [a]).getD l.length d = a := by
  simp [List.getD]

theorem listGetD_mem {α : Type} (l : List α) (j : Nat) (d : α)
    (h : j < l.length) : l.getD j d ∈ l := by
  simp [List.getD, List.getElem?_eq_getElem h]

/-! ### Projection lemmas for the rendering / emission wrappers -/

@[simp] theorem drawImages_images (s : CanvasState) : (drawImages s).images = s.images := by
  unfold drawImages; split <;> rfl

@[simp] theorem drawImages_selected (s : CanvasState) :
    (drawImages s).selectedImageIndex = s.selectedImageIndex := by
  unfold drawImages; split <;> rfl

@[simp] theorem drawImages_editing (s : CanvasState) : (drawImages s).editing = s.editing := by
  unfold drawImages; split <;> rfl

@[simp] theorem drawImages_isDragging (s : CanvasState) :
    (drawImages s).isDragging = s.isDragging := by
  unfold drawImages; split <;> rfl

@[simp] theorem drawImages_isShiftPressed (s : CanvasState) :
    (drawImages s).isShiftPressed = s.isShiftPressed := by
  unfold drawImages; split <;> rfl

@[simp] theorem drawImages_width (s : CanvasState) : (drawImages s).width = s.width := by
  unfold drawImages; split <;> rfl

@[simp] theorem drawImages_height (s : CanvasState) : (drawImages s).height = s.height := by
  unfold drawImages; split <;> rfl

@[simp] theorem drawImages_offsetX (s : CanvasState) : (drawImages s).offsetX = s.offsetX := by
  unfold drawImages; split <;> rfl

@[simp] theorem drawImages_offsetY (s : CanvasState) : (drawImages s).offsetY = s.offsetY := by
  unfold drawImages; split <;> rfl

@[simp] theorem drawImages_emitCount (s : CanvasState) :
    (drawImages s).emitCount = s.emitCount := by
  unfold drawImages; split <;> rfl

@[simp] theorem drawImages_ctxInit (s : CanvasState) : (drawImages s).ctxInit = s.ctxInit := by
  unfold drawImages; split <;> rfl

@[simp] theorem drawImages_resizeHandleSize (s : CanvasState) :
    (drawImages s).resizeHandleSize = s.resizeHandleSize := by
  unfold drawImages; split <;> rfl

@[simp] theorem drawImages_closeButtonSize (s : CanvasState) :
    (drawImages s).closeButtonSize = s.closeButtonSize := by
  unfold drawImages; split <;> rfl

@[simp] theorem emitImagesChange_images (s : CanvasState) :
    (emitImagesChange s).images = s.images := rfl

@[simp] theorem emitImagesChange_selected (s : CanvasState) :
    (emitImagesChange s).selectedImageIndex = s.selectedImageIndex := rfl

@[simp] theorem emitImagesChange_editing (s : CanvasState) :
    (emitImagesChange s).editing = s.editing := rfl

@[simp] theorem emitImagesChange_isDragging (s : CanvasState) :
    (emitImagesChange s).isDragging = s.isDragging := rfl

@[simp] theorem emitImagesChange_offsetX (s : CanvasState) :
    (emitImagesChange s).offsetX = s.offsetX := rfl

@[simp] theorem emitImagesChange_offsetY (s : CanvasState) :
    (emitImagesChange s).offsetY = s.offsetY := rfl

@[simp] theorem emitImagesChange_emitCount (s : CanvasState) :
    (emitImagesChange s).emitCount = s.emitCount + 1 := rfl

@[simp] theorem emitImagesChange_isShiftPressed (s : CanvasState) :
    (emitImagesChange s).isShiftPressed = s.isShiftPressed := rfl

@[simp] theorem emitImagesChange_ctxInit (s : CanvasState) :
    (emitImagesChange s).ctxInit = s.ctxInit := rfl

@[simp] theorem emitImagesChange_width (s : CanvasState) :
    (emitImagesChange s).width = s.width := rfl

@[simp] theorem emitImagesChange_height (s : CanvasState) :
    (emitImagesChange s).height = s.height := rfl

@[simp] theorem emitImagesChange_resizeHandleSize (s : CanvasState) :
    (emitImagesChange s).resizeHandleSize = s.resizeHandleSize := rfl

@[simp] theorem emitImagesChange_closeButtonSize (s : CanvasState) :
    (emitImagesChange s).closeButtonSize = s.closeButtonSize := rfl

/-! ### C3: initial placement of a dropped image -/

/-- C3 counterexample: dropping a 1000 × 500 image on the default 800 × 600
surface uses the fallback width (1000 > 800) but keeps the original height
(500 ≤ 600), producing a 100 × 500 placement whose aspect ratio 1/5 differs
from the original ratio 2, so the claim's clause that the aspect ratio is
preserved whenever the fallback width is used is false. -/
theorem C3_counterexample :
    initialPlacement 800 600 1000 500 =
      { x := 0, y := 0, width := 100, height := 500 } ∧
    ¬ ((initialPlacement 800 600 1000 500).width /
        (initialPlacement 800 600 1000 500).height = 1000 / 500) := by
  have h : initialPlacement 800 600 1000 500 =
      { x := 0, y := 0, width := 100, height := 500 } := by
    simp only [initialPlacement]
    norm_num
  refine ⟨h, ?_⟩
  rw [h]
  norm_num

/-- C3 (amended): a completed drop appends exactly one image, placed at
`(0,0)` with `width = w0` if `w0 ≤ W` and `100` otherwise, and `height = h0`
if `h0 ≤ H` and `h0 / w0 * 100` otherwise, and emits a change notification;
the aspect ratio `w0 / h0` is preserved when both fallbacks fire, i.e. when
`W < w0` and `H < h0` (not merely when the fallback width is used). -/
theorem C3_drop_placement (s : CanvasState) (w0 h0 : ℚ)
    (hw : 0 < w0) (hh : 0 < h0) :
    (dropComplete s w0 h0).images =
      s.images ++ [initialPlacement s.width s.height w0 h0] ∧
    (initialPlacement s.width s.height w0 h0).x = 0 ∧
    (initialPlacement s.width s.height w0 h0).y = 0 ∧
    (initialPlacement s.width s.height w0 h0).width =
      (if w0 ≤ s.width then w0 else 100) ∧
    (initialPlacement s.width s.height w0 h0).height =
      (if h0 ≤ s.height then h0 else h0 / w0 * 100) ∧
    (s.width < w0 → s.height < h0 →
      (initialPlacement s.width s.height w0 h0).width /
        (initialPlacement s.width s.height w0 h0).height = w0 / h0) ∧
    (dropComplete s w0 h0).emitCount = s.emitCount + 1 := by
  refine ⟨by simp [dropComplete], rfl, rfl, rfl, rfl, ?_, by simp [dropComplete]⟩
  intro h1 h2
  simp only [initialPlacement, if_neg (not_le.mpr h1), if_neg (not_le.mpr h2)]
  have hw' : w0 ≠ 0 := ne_of_gt hw
  have hh' : h0 ≠ 0 := ne_of_gt hh
  field_simp
  ring

/-- Closed instance of `C3_drop_placement` at `W = 800`, `H = 600`,
`w0 = 1600`, `h0 = 1200` discharging its positivity hypotheses. -/
theorem C3_drop_placement_witness :
    (dropComplete (ngOnInit (initState 800 600 10 20)) 1600 1200).images =
      (ngOnInit (initState 800 600 10 20)).images ++
        [initialPlacement 800 600 1600 1200] ∧
    (initialPlacement 800 600 1600 1200).x = 0 ∧
    (initialPlacement 800 600 1600 1200).y = 0 ∧
    (initialPlacement 800 600 1600 1200).width = (if (1600 : ℚ) ≤ 800 then 1600 else 100) ∧
    (initialPlacement 800 600 1600 1200).height =
      (if (1200 : ℚ) ≤ 600 then 1200 else 1200 / 1600 * 100) ∧
    ((800 : ℚ) < 1600 → (600 : ℚ) < 1200 →
      (initialPlacement 800 600 1600 1200).width /
        (initialPlacement 800 600 1600 1200).height = 1600 / 1200) ∧
    (dropComplete (ngOnInit (initState 800 600 10 20)) 1600 1200).emitCount =
      (ngOnInit (initState 800 600 10 20)).emitCount + 1 :=
  C3_drop_placement (ngOnInit (initState 800 600 10 20)) 1600 1200
    (by norm_num) (by norm_num)

/-! ### C9: drop with an empty file list -/

/-- C9 counterexample: with editing enabled (any freshly initialised
component) a drop whose transfer carries an empty file list leaves the state
unchanged but throws a TypeError (`undefined` handed to
`FileReader.readAsDataURL`), so the gesture is not silently ignored. -/
theorem C9_counterexample :
    (onDropSync (ngOnInit (initState 800 600 10 20)) (some [])).2 = true := by
  simp [onDropSync, ngOnInit, initState, drawImages]

/-- C9 (amended): a drop whose transfer carries an empty file list never
mutates the state and never emits — but it is silent only when editing is
disabled; with editing enabled the handler throws a TypeError instead of
returning cleanly. -/
theorem C9_empty_drop (s : CanvasState) :
    (onDropSync s (some [])).1 = s ∧ (onDropSync s (some [])).2 = s.editing := by
  cases h : s.editing <;> simp [onDropSync, h]

/-! ### Shape lemmas for `onMouseMove` -/

/-- A pointer-move never changes any component field other than `images`
and `drawCount`, and never changes the number of images. -/
theorem onMouseMove_preserves (s : CanvasState) (px py : ℚ) :
    (onMouseMove s px py).selectedImageIndex = s.selectedImageIndex ∧
    (onMouseMove s px py).editing = s.editing ∧
    (onMouseMove s px py).isDragging = s.isDragging ∧
    (onMouseMove s px py).isShiftPressed = s.isShiftPressed ∧
    (onMouseMove s px py).width = s.width ∧
    (onMouseMove s px py).height = s.height ∧
    (onMouseMove s px py).offsetX = s.offsetX ∧
    (onMouseMove s px py).offsetY = s.offsetY ∧
    (onMouseMove s px py).emitCount = s.emitCount ∧
    (onMouseMove s px py).ctxInit = s.ctxInit ∧
    (onMouseMove s px py).resizeHandleSize = s.resizeHandleSize ∧
    (onMouseMove s px py).closeButtonSize = s.closeButtonSize ∧
    (onMouseMove s px py).images.length = s.images.length := by
  unfold onMouseMove
  cases h : s.selectedImageIndex with
  | none => simp [h]
  | some i =>
    simp only
    split
    · split
      · split <;> simp [h]
      · split <;> simp [h]
    · simp [h]

/-- The image list produced by a pointer-move on a selected resizing image
while Shift is held. -/
theorem onMouseMove_resize_shift (s : CanvasState) (px py : ℚ) (i : Int)
    (hsel : s.selectedImageIndex = some i)
    (hi : 0 ≤ i ∧ i.toNat < s.images.length)
    (hres : (s.images.getD i.toNat default).isResizing = true)
    (hsh : s.isShiftPressed = true) :
    (onMouseMove s px py).images = s.images.set i.toNat
      { s.images.getD i.toNat default with
        width := max 10 ((s.images.getD i.toNat default).initialWidth.getD 0 +
          (px - (s.images.getD i.toNat default).x -
           (s.images.getD i.toNat default).initialWidth.getD 0)),
        height := max 10 ((s.images.getD i.toNat default).initialWidth.getD 0 +
          (px - (s.images.getD i.toNat default).x -
           (s.images.getD i.toNat default).initialWidth.getD 0)) /
          ((s.images.getD i.toNat default).initialWidth.getD 0 /
           (s.images.getD i.toNat default).initialHeight.getD 0) } := by
  unfold onMouseMove
  rw [hsel]
  simp only
  rw [if_pos hi]
  rw [List.getD_eq_getElem?_getD] at hres
  simp [hres, hsh]

/-- The image list produced by a pointer-move on a selected resizing image
while Shift is not held. -/
theorem onMouseMove_resize_noshift (s : CanvasState) (px py : ℚ) (i : Int)
    (hsel : s.selectedImageIndex = some i)
    (hi : 0 ≤ i ∧ i.toNat < s.images.length)
    (hres : (s.images.getD i.toNat default).isResizing = true)
    (hsh : s.isShiftPressed = false) :
    (onMouseMove s px py).images = s.images.set i.toNat
      { s.images.getD i.toNat default with
        width := max 10 ((s.images.getD i.toNat default).initialWidth.getD 0 +
          (px - (s.images.getD i.toNat default).x -
           (s.images.getD i.toNat default).initialWidth.getD 0)),
        height := max 10 ((s.images.getD i.toNat default).initialHeight.getD 0 +
          (py - (s.images.getD i.toNat default).y -
           (s.images.getD i.toNat default).initialHeight.getD 0)) } := by
  unfold onMouseMove
  rw [hsel]
  simp only
  rw [if_pos hi]
  rw [List.getD_eq_getElem?_getD] at hres
  simp [hres, hsh]

/-- The image list produced by a pointer-move on a selected non-resizing
image while a drag is active. -/
theorem onMouseMove_drag (s : CanvasState) (px py : ℚ) (i : Int)
    (hsel : s.selectedImageIndex = some i)
    (hi : 0 ≤ i ∧ i.toNat < s.images.length)
    (hres : (s.images.getD i.toNat default).isResizing = false)
    (hdrag : s.isDragging = true) :
    (onMouseMove s px py).images = s.images.set i.toNat
      { s.images.getD i.toNat default with
        x := min (max 0 (px - s.offsetX))
          (s.width - (s.images.getD i.toNat default).width),
        y := min (max 0 (py - s.offsetY))
          (s.height - (s.images.getD i.toNat default).height) } := by
  unfold onMouseMove
  rw [hsel]
  simp only
  rw [if_pos hi]
  rw [List.getD_eq_getElem?_getD] at hres
  simp [hres, hdrag]

/-- A pointer-move with a valid selection that is neither resizing nor
dragging leaves the image list unchanged. -/
theorem onMouseMove_idle (s : CanvasState) (px py : ℚ) (i : Int)
    (hsel : s.selectedImageIndex = some i)
    (hi : 0 ≤ i ∧ i.toNat < s.images.length)
    (hres : (s.images.getD i.toNat default).isResizing = false)
    (hdrag : s.isDragging = false) :
    (onMouseMove s px py).images = s.images := by
  unfold onMouseMove
  rw [hsel]
  simp only
  rw [if_pos hi]
  rw [List.getD_eq_getElem?_getD] at hres
  simp [hres, hdrag]

/-! ### C1: minimum size after a resize move -/

/-- The pointer event trace of a realistic gesture refuting C1: initialise,
complete a drop of a 300 × 30 image, press the resize handle at (295, 25)
(inside the handle, outside every close affordance), hold Shift, move the
pointer to (5, 5). -/
def C1ops : List Op :=
  [Op.init, Op.dropComplete 300 30, Op.mouseDown 295 25, Op.shiftDown,
   Op.mouseMove 5 5]

/-- C1 counterexample: after the Shift-resize move of `C1ops` the image is
still mid-resize and its height is 1, far below the floor of 10 — the
Shift branch floors only the width and derives the height from the frozen
aspect ratio 300/30 = 10. -/
theorem C1_counterexample :
    ((runOps (initState 800 600 10 20) C1ops).images.getD 0 default).isResizing
        = true ∧
    ((runOps (initState 800 600 10 20) C1ops).images.getD 0 default).height
        < 10 := by
  norm_num [C1ops, runOps, applyOp, initState, ngOnInit, dropComplete,
    emitImagesChange, drawImages, initialPlacement, onMouseDown, findCloseIdx,
    inCloseBounds, scanMark, inImageBounds, inResizeBounds, markResize,
    onKeyDownShift, onMouseMove, List.getD_eq_getElem?_getD]

/-- C1 (amended): a pointer-move on a selected resizing image always leaves
`width ≥ 10`; it also leaves `height ≥ 10` when Shift is not held, but with
Shift held the height is derived from the frozen aspect ratio and is not
separately floored (see `C1_counterexample`). -/
theorem C1_min_size (s : CanvasState) (px py : ℚ) (i : Int)
    (hsel : s.selectedImageIndex = some i)
    (hi : 0 ≤ i ∧ i.toNat < s.images.length)
    (hres : (s.images.getD i.toNat default).isResizing = true) :
    10 ≤ ((onMouseMove s px py).images.getD i.toNat default).width ∧
    (s.isShiftPressed = false →
      10 ≤ ((onMouseMove s px py).images.getD i.toNat default).height) := by
  constructor
  · cases hsh : s.isShiftPressed
    · rw [onMouseMove_resize_noshift s px py i hsel hi hres hsh,
          listGetD_set_self _ _ _ _ hi.2]
      exact le_max_left _ _
    · rw [onMouseMove_resize_shift s px py i hsel hi hres hsh,
          listGetD_set_self _ _ _ _ hi.2]
      exact le_max_left _ _
  · intro hsh
    rw [onMouseMove_resize_noshift s px py i hsel hi hres hsh,
        listGetD_set_self _ _ _ _ hi.2]
    exact le_max_left _ _

/-- A mid-resize state used to instantiate the hypothesised theorems: one
300 × 30 image selected with the resize gesture active and its size
snapshot frozen. -/
def resizingState : CanvasState :=
  { width := 800, height := 600, editing := true,
    resizeHandleSize := 10, closeButtonSize := 20,
    images := [{ x := 0, y := 0, width := 300, height := 30,
                 isResizing := true,
                 initialWidth := some 300, initialHeight := some 30 }],
    selectedImageIndex := some 0,
    offsetX := 295, offsetY := 25, isDragging := true,
    isShiftPressed := false, ctxInit := true, drawCount := 3, emitCount := 1 }

/-- Closed instance of `C1_min_size` on `resizingState` with the pointer
at (5, 5), discharging its selection and resize hypotheses. -/
theorem C1_min_size_witness :
    10 ≤ ((onMouseMove resizingState 5 5).images.getD 0 default).width ∧
    (resizingState.isShiftPressed = false →
      10 ≤ ((onMouseMove resizingState 5 5).images.getD 0 default).height) :=
  C1_min_size resizingState 5 5 0 rfl (by constructor <;> decide) rfl

/-! ### C2: drag clamping -/

/-- The pointer event trace refuting C2: initialise, install (via
`setImages`) a 900 × 100 image — wider than the 800-unit surface — press
inside its body at (10, 50) and move the pointer without displacement. -/
def C2ops : List Op :=
  [Op.init, Op.setImages [{ x := 0, y := 0, width := 900, height := 100 }],
   Op.mouseDown 10 50, Op.mouseMove 10 50]

/-- C2 counterexample: after the drag move of `C2ops` the image sits at
`x = -100 < 0`: when the image is wider than the surface the clamp
`min (max 0 raw) (surfaceWidth - width)` has a negative upper bound, so the
claimed `0 ≤ x` fails. -/
theorem C2_counterexample :
    ((runOps (initState 800 600 10 20) C2ops).images.getD 0 default).x = -100 ∧
    ¬ (0 ≤ ((runOps (initState 800 600 10 20) C2ops).images.getD 0 default).x) := by
  norm_num [C2ops, runOps, applyOp, initState, ngOnInit, setImages,
    drawImages, onMouseDown, findCloseIdx, inCloseBounds, scanMark,
    inImageBounds, inResizeBounds, markResize, onMouseMove,
    List.getD_eq_getElem?_getD]

/-- C2 (amended): a pointer-move during an active drag clamps the selected
image's position into `[0, surface - image]` on both axes provided the
image fits the surface (`width ≤ surfaceWidth` and
`height ≤ surfaceHeight`); without that proviso the lower clamp can be
violated (see `C2_counterexample`). -/
theorem C2_drag_clamped (s : CanvasState) (px py : ℚ) (i : Int)
    (hsel : s.selectedImageIndex = some i)
    (hi : 0 ≤ i ∧ i.toNat < s.images.length)
    (hres : (s.images.getD i.toNat default).isResizing = false)
    (hdrag : s.isDragging = true)
    (hw : (s.images.getD i.toNat default).width ≤ s.width)
    (hh : (s.images.getD i.toNat default).height ≤ s.height) :
    0 ≤ ((onMouseMove s px py).images.getD i.toNat default).x ∧
    ((onMouseMove s px py).images.getD i.toNat default).x ≤
      s.width - ((onMouseMove s px py).images.getD i.toNat default).width ∧
    0 ≤ ((onMouseMove s px py).images.getD i.toNat default).y ∧
    ((onMouseMove s px py).images.getD i.toNat default).y ≤
      s.height - ((onMouseMove s px py).images.getD i.toNat default).height := by
  rw [onMouseMove_drag s px py i hsel hi hres hdrag,
      listGetD_set_self _ _ _ _ hi.2]
  refine ⟨le_min (le_max_left _ _) (by linarith), min_le_right _ _,
          le_min (le_max_left _ _) (by linarith), min_le_right _ _⟩

/-- A mid-drag state used to instantiate the hypothesised theorems: one
300 × 30 image selected with a drag active (no resize). -/
def draggingState : CanvasState :=
  { width := 800, height := 600, editing := true,
    resizeHandleSize := 10, closeButtonSize := 20,
    images := [{ x := 0, y := 0, width := 300, height := 30 }],
    selectedImageIndex := some 0,
    offsetX := 10, offsetY := 10, isDragging := true,
    isShiftPressed := false, ctxInit := true, drawCount := 3, emitCount := 1 }

/-- Closed instance of `C2_drag_clamped` on `draggingState` with the
pointer at (5000, -40), discharging all its hypotheses. -/
theorem C2_drag_clamped_witness :
    0 ≤ ((onMouseMove draggingState 5000 (-40)).images.getD 0 default).x ∧
    ((onMouseMove draggingState 5000 (-40)).images.getD 0 default).x ≤
      draggingState.width -
        ((onMouseMove draggingState 5000 (-40)).images.getD 0 default).width ∧
    0 ≤ ((onMouseMove draggingState 5000 (-40)).images.getD 0 default).y ∧
    ((onMouseMove draggingState 5000 (-40)).images.getD 0 default).y ≤
      draggingState.height -
        ((onMouseMove draggingState 5000 (-40)).images.getD 0 default).height :=
  C2_drag_clamped draggingState 5000 (-40) 0 rfl (by constructor <;> decide)
    rfl rfl (by norm_num [draggingState]) (by norm_num [draggingState])

/-! ### C6: aspect lock under Shift -/

/-- C6 (confirmed): a pointer-move on a selected resizing image with Shift
held and positive frozen snapshot dimensions leaves
`width / height = initialWidth / initialHeight` exactly — including when
the width floor of 10 fires, since the height is derived from the floored
width. -/
theorem C6_aspect_lock (s : CanvasState) (px py : ℚ) (i : Int) (iw ih : ℚ)
    (hsel : s.selectedImageIndex = some i)
    (hi : 0 ≤ i ∧ i.toNat < s.images.length)
    (hres : (s.images.getD i.toNat default).isResizing = true)
    (hsh : s.isShiftPressed = true)
    (hiw : (s.images.getD i.toNat default).initialWidth = some iw)
    (hih : (s.images.getD i.toNat default).initialHeight = some ih)
    (hiwpos : 0 < iw) (hihpos : 0 < ih) :
    ((onMouseMove s px py).images.getD i.toNat default).width /
      ((onMouseMove s px py).images.getD i.toNat default).height = iw / ih := by
  rw [onMouseMove_resize_shift s px py i hsel hi hres hsh,
      listGetD_set_self _ _ _ _ hi.2]
  show (max 10 _) / ((max 10 _) / _) = iw / ih
  rw [hiw, hih]
  simp only [Option.getD_some]
  have hnw : (0 : ℚ) < max 10 (iw + (px - (s.images.getD i.toNat default).x - iw)) :=
    lt_of_lt_of_le (by norm_num) (le_max_left _ _)
  rw [div_div_eq_mul_div, mul_comm, mul_div_assoc, div_self (ne_of_gt hnw),
      mul_one]

/-- Closed instance of `C6_aspect_lock` on `resizingState` with Shift held
(via `onKeyDownShift`) and the pointer at (5, 5), discharging all its
hypotheses. -/
theorem C6_aspect_lock_witness :
    ((onMouseMove (onKeyDownShift resizingState) 5 5).images.getD 0
        default).width /
      ((onMouseMove (onKeyDownShift resizingState) 5 5).images.getD 0
        default).height = 300 / 30 :=
  C6_aspect_lock (onKeyDownShift resizingState) 5 5 0 300 30 rfl
    (by constructor <;> decide) rfl rfl rfl rfl (by norm_num) (by norm_num)

/-! ### C5: delete via the close affordance -/

/-- Soundness of the close-button first-match search: a found index is in
range, its image's close bounds contain the point, and no earlier image's
close bounds do. -/
theorem findCloseIdx_spec (cb px py : ℚ) (l : List DraggableImage) :
    ∀ j : Nat, findCloseIdx cb px py l = some j →
      j < l.length ∧ inCloseBounds cb (l.getD j default) px py ∧
      ∀ k, k < j → ¬ inCloseBounds cb (l.getD k default) px py := by
  induction l with
  | nil => intro j h; simp [findCloseIdx] at h
  | cons img rest ih =>
    intro j h
    by_cases hc : inCloseBounds cb img px py
    · rw [findCloseIdx, if_pos hc] at h
      injection h with h
      subst h
      exact ⟨Nat.succ_pos _, hc, fun k hk => absurd hk (Nat.not_lt_zero k)⟩
    · rw [findCloseIdx, if_neg hc] at h
      rcases Option.map_eq_some'.mp h with ⟨j', hj', rfl⟩
      obtain ⟨h1, h2, h3⟩ := ih j' hj'
      refine ⟨Nat.succ_lt_succ h1, by simpa using h2, ?_⟩
      intro k hk
      cases k with
      | zero => simpa using hc
      | succ k' => simpa using h3 k' (Nat.lt_of_succ_lt_succ hk)

/-- With editing enabled and a close-button hit, `onMouseDown` takes
exactly the delete path. -/
theorem onMouseDown_close (s : CanvasState) (px py : ℚ) (j : Nat)
    (hed : s.editing = true)
    (hfind : findCloseIdx s.closeButtonSize px py s.images = some j) :
    onMouseDown s px py =
      emitImagesChange (drawImages
        { s with images := s.images.eraseIdx j, selectedImageIndex := none }) := by
  simp [onMouseDown, hed, hfind]

/-- The delete path of `onMouseDown` in full: given the first-match index,
the registry loses exactly that entry, everything else is untouched, one
notification fires and no drag state is created. -/
theorem onMouseDown_close_spec (s : CanvasState) (px py : ℚ) (j : Nat)
    (hed : s.editing = true)
    (hfind : findCloseIdx s.closeButtonSize px py s.images = some j) :
    (onMouseDown s px py).images = s.images.eraseIdx j ∧
    (onMouseDown s px py).images = s.images.take j ++ s.images.drop (j + 1) ∧
    j < s.images.length ∧
    inCloseBounds s.closeButtonSize (s.images.getD j default) px py ∧
    (∀ k, k < j →
      ¬ inCloseBounds s.closeButtonSize (s.images.getD k default) px py) ∧
    (onMouseDown s px py).selectedImageIndex = none ∧
    (onMouseDown s px py).emitCount = s.emitCount + 1 ∧
    (onMouseDown s px py).isDragging = s.isDragging ∧
    (onMouseDown s px py).isShiftPressed = s.isShiftPressed ∧
    (onMouseDown s px py).offsetX = s.offsetX ∧
    (onMouseDown s px py).offsetY = s.offsetY := by
  obtain ⟨h1, h2, h3⟩ := findCloseIdx_spec s.closeButtonSize px py s.images j hfind
  rw [onMouseDown_close s px py j hed hfind]
  exact ⟨by simp, by simp [List.eraseIdx_eq_take_drop_succ], h1, h2, h3,
         by simp, by simp, by simp, by simp, by simp, by simp⟩

/-- Completeness of the close-button search: if any image's close bounds
contain the point, `findIndex` finds one. -/
theorem findCloseIdx_complete (cb px py : ℚ) (l : List DraggableImage)
    (h : ∃ a ∈ l, inCloseBounds cb a px py) :
    ∃ j : Nat, findCloseIdx cb px py l = some j := by
  induction l with
  | nil => simp at h
  | cons img rest ih =>
    by_cases hc : inCloseBounds cb img px py
    · exact ⟨0, by rw [findCloseIdx, if_pos hc]⟩
    · obtain ⟨a, ha, hca⟩ := h
      rcases List.mem_cons.mp ha with rfl | ha'
      · exact absurd hca hc
      · obtain ⟨j, hj⟩ := ih ⟨a, ha', hca⟩
        exact ⟨j + 1, by rw [findCloseIdx, if_neg hc, hj]; rfl⟩

/-- C5 (confirmed): a pointer-down with editing enabled whose coordinates
lie inside at least one image's close affordance removes exactly the first
image (in sequence order) whose close bounds contain the point, leaves
every other entry untouched and in order (`take j ++ drop (j+1)`), clears
the selection, emits one change notification, and initiates no drag or
resize in that cycle (the body/resize pass never runs, so `isDragging` and
every surviving image are unchanged); the close test takes precedence over
the body/resize test by construction. -/
theorem C5_close_delete (s : CanvasState) (px py : ℚ)
    (hed : s.editing = true)
    (hhit : ∃ a ∈ s.images, inCloseBounds s.closeButtonSize a px py) :
    ∃ j : Nat,
      findCloseIdx s.closeButtonSize px py s.images = some j ∧
      (onMouseDown s px py).images = s.images.eraseIdx j ∧
      (onMouseDown s px py).images =
        s.images.take j ++ s.images.drop (j + 1) ∧
      j < s.images.length ∧
      inCloseBounds s.closeButtonSize (s.images.getD j default) px py ∧
      (∀ k, k < j →
        ¬ inCloseBounds s.closeButtonSize (s.images.getD k default) px py) ∧
      (onMouseDown s px py).selectedImageIndex = none ∧
      (onMouseDown s px py).emitCount = s.emitCount + 1 ∧
      (onMouseDown s px py).isDragging = s.isDragging ∧
      (onMouseDown s px py).isShiftPressed = s.isShiftPressed ∧
      (onMouseDown s px py).offsetX = s.offsetX ∧
      (onMouseDown s px py).offsetY = s.offsetY := by
  obtain ⟨j, hj⟩ := findCloseIdx_complete s.closeButtonSize px py s.images hhit
  exact ⟨j, hj, onMouseDown_close_spec s px py j hed hj⟩

/-- A two-image editing state whose first image's close affordance contains
the point (95, 5). -/
def closeState : CanvasState :=
  { width := 800, height := 600, editing := true, resizeHandleSize := 10,
    closeButtonSize := 20,
    images := [{ x := 0, y := 0, width := 100, height := 100 },
               { x := 200, y := 0, width := 50, height := 50 }],
    selectedImageIndex := none, offsetX := 0, offsetY := 0,
    isDragging := false, isShiftPressed := false, ctxInit := true,
    drawCount := 1, emitCount := 0 }

/-- Closed instance of `C5_close_delete` on `closeState` at (95, 5),
discharging the editing and hit hypotheses. -/
theorem C5_close_delete_witness :
    ∃ j : Nat,
      findCloseIdx closeState.closeButtonSize 95 5 closeState.images = some j ∧
      (onMouseDown closeState 95 5).images = closeState.images.eraseIdx j ∧
      (onMouseDown closeState 95 5).images =
        closeState.images.take j ++ closeState.images.drop (j + 1) ∧
      j < closeState.images.length ∧
      inCloseBounds closeState.closeButtonSize
        (closeState.images.getD j default) 95 5 ∧
      (∀ k, k < j → ¬ inCloseBounds closeState.closeButtonSize
        (closeState.images.getD k default) 95 5) ∧
      (onMouseDown closeState 95 5).selectedImageIndex = none ∧
      (onMouseDown closeState 95 5).emitCount = closeState.emitCount + 1 ∧
      (onMouseDown closeState 95 5).isDragging = closeState.isDragging ∧
      (onMouseDown closeState 95 5).isShiftPressed =
        closeState.isShiftPressed ∧
      (onMouseDown closeState 95 5).offsetX = closeState.offsetX ∧
      (onMouseDown closeState 95 5).offsetY = closeState.offsetY :=
  C5_close_delete closeState 95 5 rfl
    ⟨{ x := 0, y := 0, width := 100, height := 100 },
     by norm_num [closeState],
     by norm_num [inCloseBounds, closeState]⟩

/-! ### C8: editing toggle resets transient state -/

/-- C8 (confirmed): whenever the `editing` input changes (either
direction), the selection and the dragging flag are cleared, every image's
`isResizing` flag is cleared, the new editing value is in force, and the
surface is redrawn (given the rendering context is installed, i.e. after
`ngOnInit`). -/
theorem C8_toggle_resets (s : CanvasState) (b : Bool) (hctx : s.ctxInit = true) :
    (ngOnChanges s b).selectedImageIndex = none ∧
    (ngOnChanges s b).isDragging = false ∧
    (∀ img ∈ (ngOnChanges s b).images, img.isResizing = false) ∧
    (ngOnChanges s b).editing = b ∧
    (ngOnChanges s b).drawCount = s.drawCount + 1 := by
  refine ⟨by simp [ngOnChanges, resetInteractions],
          by simp [ngOnChanges, resetInteractions], ?_,
          by simp [ngOnChanges, resetInteractions], ?_⟩
  · intro img hmem
    simp only [ngOnChanges, drawImages_images] at hmem
    simp only [resetInteractions, List.mem_map] at hmem
    obtain ⟨a, _, rfl⟩ := hmem
    rfl
  · simp [ngOnChanges, resetInteractions, drawImages, hctx]

/-- Closed instance of `C8_toggle_resets`: toggling editing off on
`resizingState` (a mid-resize state), discharging the context hypothesis. -/
theorem C8_toggle_resets_witness :
    (ngOnChanges resizingState false).selectedImageIndex = none ∧
    (ngOnChanges resizingState false).isDragging = false ∧
    (∀ img ∈ (ngOnChanges resizingState false).images, img.isResizing = false) ∧
    (ngOnChanges resizingState false).editing = false ∧
    (ngOnChanges resizingState false).drawCount = resizingState.drawCount + 1 :=
  C8_toggle_resets resizingState false rfl

/-! ### C10: frame conditions of a pointer-move -/

/-- C10 (confirmed): a pointer-move with a valid selection changes only the
selected image and only the fields of its active mode — during a resize
only `width`/`height` (position, flags and snapshots untouched), during a
drag only `x`/`y` (size, flags and snapshots untouched), with no mode
active nothing at all — and every other image and the list's length (hence
membership and order) are untouched. -/
theorem C10_move_frame (s : CanvasState) (px py : ℚ) (i : Int)
    (hsel : s.selectedImageIndex = some i)
    (hi : 0 ≤ i ∧ i.toNat < s.images.length) :
    (onMouseMove s px py).images.length = s.images.length ∧
    (∀ j, j ≠ i.toNat →
      (onMouseMove s px py).images.getD j default = s.images.getD j default) ∧
    ((s.images.getD i.toNat default).isResizing = true →
      ((onMouseMove s px py).images.getD i.toNat default).x =
        (s.images.getD i.toNat default).x ∧
      ((onMouseMove s px py).images.getD i.toNat default).y =
        (s.images.getD i.toNat default).y ∧
      ((onMouseMove s px py).images.getD i.toNat default).isResizing =
        (s.images.getD i.toNat default).isResizing ∧
      ((onMouseMove s px py).images.getD i.toNat default).initialWidth =
        (s.images.getD i.toNat default).initialWidth ∧
      ((onMouseMove s px py).images.getD i.toNat default).initialHeight =
        (s.images.getD i.toNat default).initialHeight) ∧
    ((s.images.getD i.toNat default).isResizing = false → s.isDragging = true →
      ((onMouseMove s px py).images.getD i.toNat default).width =
        (s.images.getD i.toNat default).width ∧
      ((onMouseMove s px py).images.getD i.toNat default).height =
        (s.images.getD i.toNat default).height ∧
      ((onMouseMove s px py).images.getD i.toNat default).isResizing =
        (s.images.getD i.toNat default).isResizing ∧
      ((onMouseMove s px py).images.getD i.toNat default).initialWidth =
        (s.images.getD i.toNat default).initialWidth ∧
      ((onMouseMove s px py).images.getD i.toNat default).initialHeight =
        (s.images.getD i.toNat default).initialHeight) ∧
    ((s.images.getD i.toNat default).isResizing = false → s.isDragging = false →
      (onMouseMove s px py).images = s.images) := by
  cases hres : (s.images.getD i.toNat default).isResizing with
  | true =>
    cases hsh : s.isShiftPressed with
    | true =>
      rw [onMouseMove_resize_shift s px py i hsel hi hres hsh]
      refine ⟨by simp, fun j hj => listGetD_set_ne _ _ _ _ _ hj, ?_, ?_, ?_⟩
      · intro _
        rw [listGetD_set_self _ _ _ _ hi.2]
        exact ⟨rfl, rfl, hres, rfl, rfl⟩
      · intro hres' _
        exact Bool.noConfusion hres'
      · intro hres' _
        exact Bool.noConfusion hres'
    | false =>
      rw [onMouseMove_resize_noshift s px py i hsel hi hres hsh]
      refine ⟨by simp, fun j hj => listGetD_set_ne _ _ _ _ _ hj, ?_, ?_, ?_⟩
      · intro _
        rw [listGetD_set_self _ _ _ _ hi.2]
        exact ⟨rfl, rfl, hres, rfl, rfl⟩
      · intro hres' _
        exact Bool.noConfusion hres'
      · intro hres' _
        exact Bool.noConfusion hres'
  | false =>
    cases hdrag : s.isDragging with
    | true =>
      rw [onMouseMove_drag s px py i hsel hi hres hdrag]
      refine ⟨by simp, fun j hj => listGetD_set_ne _ _ _ _ _ hj, ?_, ?_, ?_⟩
      · intro hres'
        exact Bool.noConfusion hres'
      · intro _ _
        rw [listGetD_set_self _ _ _ _ hi.2]
        exact ⟨rfl, rfl, hres, rfl, rfl⟩
      · intro _ hdrag'
        exact Bool.noConfusion hdrag'
    | false =>
      rw [onMouseMove_idle s px py i hsel hi hres hdrag]
      refine ⟨rfl, fun j hj => rfl, ?_, ?_, fun _ _ => rfl⟩
      · intro hres'
        exact Bool.noConfusion hres'
      · intro _ hdrag'
        exact Bool.noConfusion hdrag'

/-- Closed instance of `C10_move_frame` on `resizingState` with the pointer
at (40, 70), discharging the selection and validity hypotheses. -/
theorem C10_move_frame_witness :
    (onMouseMove resizingState 40 70).images.length =
      resizingState.images.length ∧
    (∀ j, j ≠ Int.toNat 0 →
      (onMouseMove resizingState 40 70).images.getD j default =
        resizingState.images.getD j default) ∧
    ((resizingState.images.getD (Int.toNat 0) default).isResizing = true →
      ((onMouseMove resizingState 40 70).images.getD (Int.toNat 0) default).x =
        (resizingState.images.getD (Int.toNat 0) default).x ∧
      ((onMouseMove resizingState 40 70).images.getD (Int.toNat 0) default).y =
        (resizingState.images.getD (Int.toNat 0) default).y ∧
      ((onMouseMove resizingState 40 70).images.getD (Int.toNat 0)
          default).isResizing =
        (resizingState.images.getD (Int.toNat 0) default).isResizing ∧
      ((onMouseMove resizingState 40 70).images.getD (Int.toNat 0)
          default).initialWidth =
        (resizingState.images.getD (Int.toNat 0) default).initialWidth ∧
      ((onMouseMove resizingState 40 70).images.getD (Int.toNat 0)
          default).initialHeight =
        (resizingState.images.getD (Int.toNat 0) default).initialHeight) ∧
    ((resizingState.images.getD (Int.toNat 0) default).isResizing = false →
      resizingState.isDragging = true →
      ((onMouseMove resizingState 40 70).images.getD (Int.toNat 0)
          default).width =
        (resizingState.images.getD (Int.toNat 0) default).width ∧
      ((onMouseMove resizingState 40 70).images.getD (Int.toNat 0)
          default).height =
        (resizingState.images.getD (Int.toNat 0) default).height ∧
      ((onMouseMove resizingState 40 70).images.getD (Int.toNat 0)
          default).isResizing =
        (resizingState.images.getD (Int.toNat 0) default).isResizing ∧
      ((onMouseMove resizingState 40 70).images.getD (Int.toNat 0)
          default).initialWidth =
        (resizingState.images.getD (Int.toNat 0) default).initialWidth ∧
      ((onMouseMove resizingState 40 70).images.getD (Int.toNat 0)
          default).initialHeight =
        (resizingState.images.getD (Int.toNat 0) default).initialHeight) ∧
    ((resizingState.images.getD (Int.toNat 0) default).isResizing = false →
      resizingState.isDragging = false →
      (onMouseMove resizingState 40 70).images = resizingState.images) :=
  C10_move_frame resizingState 40 70 0 rfl (by constructor <;> decide)

/-! ### C7: pointer handlers are no-ops while editing is disabled -/

/-- `onDropSync` never mutates the state synchronously. -/
theorem onDropSync_fst (s : CanvasState) (dt : Option (List (ℚ × ℚ))) :
    (onDropSync s dt).1 = s := by
  unfold onDropSync
  split
  · rfl
  · split <;> rfl

/-- `onMouseDown` never changes the configuration inputs, the Shift flag or
the context flag. -/
theorem onMouseDown_config (s : CanvasState) (px py : ℚ) :
    (onMouseDown s px py).editing = s.editing ∧
    (onMouseDown s px py).isShiftPressed = s.isShiftPressed ∧
    (onMouseDown s px py).width = s.width ∧
    (onMouseDown s px py).height = s.height ∧
    (onMouseDown s px py).resizeHandleSize = s.resizeHandleSize ∧
    (onMouseDown s px py).closeButtonSize = s.closeButtonSize ∧
    (onMouseDown s px py).ctxInit = s.ctxInit := by
  unfold onMouseDown
  split
  · exact ⟨rfl, rfl, rfl, rfl, rfl, rfl, rfl⟩
  · split
    · simp
    · simp only
      cases (scanMark s.resizeHandleSize px py s.images).2 <;> simp

/-- The editing-toggle invariant: while editing is disabled there is no
selection and no drag in flight (the toggle hook cleared them and nothing
can re-establish them while the pointer-down guard is closed). -/
def EditInv (s : CanvasState) : Prop :=
  s.editing = false → s.selectedImageIndex = none ∧ s.isDragging = false

/-- Every operation preserves `EditInv`. -/
theorem editInv_applyOp (s : CanvasState) (op : Op) (h : EditInv s) :
    EditInv (applyOp s op) := by
  cases op with
  | init =>
    intro he
    simp only [applyOp, ngOnInit, drawImages_editing] at he
    obtain ⟨h1, h2⟩ := h he
    simp [applyOp, ngOnInit, h1, h2]
  | editingChange b =>
    intro _
    constructor <;> simp [applyOp, ngOnChanges, resetInteractions]
  | sizeChange w hgt => exact fun he => h he
  | dropSync dt =>
    rw [show applyOp s (Op.dropSync dt) = (onDropSync s dt).1 from rfl,
        onDropSync_fst]
    exact h
  | dropComplete w0 h0 =>
    intro he
    simp only [applyOp, dropComplete, emitImagesChange_editing,
      drawImages_editing] at he
    obtain ⟨h1, h2⟩ := h he
    simp [applyOp, dropComplete, h1, h2]
  | mouseDown px py =>
    intro he
    cases hed : s.editing with
    | false =>
      have hs : applyOp s (Op.mouseDown px py) = s := by
        simp [applyOp, onMouseDown, hed]
      rw [hs]
      exact h hed
    | true =>
      rw [show applyOp s (Op.mouseDown px py) = onMouseDown s px py from rfl,
          (onMouseDown_config s px py).1, hed] at he
      exact Bool.noConfusion he
  | mouseMove px py =>
    intro he
    obtain ⟨p1, p2, p3, _⟩ := onMouseMove_preserves s px py
    rw [show applyOp s (Op.mouseMove px py) = onMouseMove s px py from rfl] at he ⊢
    rw [p2] at he
    obtain ⟨h1, h2⟩ := h he
    rw [p1, p3]
    exact ⟨h1, h2⟩
  | mouseUp =>
    intro he
    rw [show applyOp s Op.mouseUp = onMouseUp s from rfl] at he ⊢
    cases hsel : s.selectedImageIndex with
    | none =>
      unfold onMouseUp
      rw [hsel]
      exact ⟨rfl, rfl⟩
    | some i =>
      unfold onMouseUp at he ⊢
      rw [hsel] at he ⊢
      simp only at he ⊢
      by_cases hv : 0 ≤ i ∧ i.toNat < s.images.length
      · rw [if_pos hv]
        exact ⟨rfl, rfl⟩
      · rw [if_neg hv] at he ⊢
        exact h he
  | shiftDown => exact fun he => h he
  | shiftUp => exact fun he => h he
  | setImages l =>
    intro he
    simp only [applyOp, setImages, drawImages_editing] at he
    obtain ⟨h1, h2⟩ := h he
    simp [applyOp, setImages, h1, h2]

/-- A freshly constructed component satisfies `EditInv` (editing defaults
to enabled). -/
theorem editInv_initState (W H rh cb : ℚ) : EditInv (initState W H rh cb) := by
  intro h
  simp [initState] at h

/-- Every reachable component state satisfies `EditInv`. -/
theorem reachable_editInv (W H rh cb : ℚ) (s : CanvasState)
    (h : Reachable (initState W H rh cb) s) : EditInv s := by
  induction h with
  | refl => exact editInv_initState W H rh cb
  | step op _ ih => exact editInv_applyOp _ op ih

/-- C7 (confirmed): in every reachable state with editing disabled the
three pointer handlers return the state unchanged — in particular no image
is added, removed, moved or resized, no `isResizing` flag is set, and no
change notification fires (`emitCount` is part of the state).  The
pointer-move and pointer-up cases rest on `EditInv`: the editing toggle
cleared the selection and the drag flag, and nothing can re-establish them
while editing is disabled. -/
theorem C7_disabled_noop (W H rh cb : ℚ) (s : CanvasState) (px py : ℚ)
    (hreach : Reachable (initState W H rh cb) s)
    (hed : s.editing = false) :
    onMouseDown s px py = s ∧ onMouseMove s px py = s ∧ onMouseUp s = s := by
  obtain ⟨hsel, hdrag⟩ := reachable_editInv W H rh cb s hreach hed
  refine ⟨by simp [onMouseDown, hed], by simp [onMouseMove, hsel], ?_⟩
  unfold onMouseUp
  rw [hsel]
  cases s
  simp_all

/-- Closed instance of `C7_disabled_noop`: the state reached from a fresh
component by one editing-off toggle, with the pointer at (3, 4),
discharging the reachability and editing hypotheses. -/
theorem C7_disabled_noop_witness :
    onMouseDown (applyOp (initState 800 600 10 20) (Op.editingChange false)) 3 4
      = applyOp (initState 800 600 10 20) (Op.editingChange false) ∧
    onMouseMove (applyOp (initState 800 600 10 20) (Op.editingChange false)) 3 4
      = applyOp (initState 800 600 10 20) (Op.editingChange false) ∧
    onMouseUp (applyOp (initState 800 600 10 20) (Op.editingChange false))
      = applyOp (initState 800 600 10 20) (Op.editingChange false) :=
  C7_disabled_noop 800 600 10 20 _ 3 4
    (Reachable.step (Op.editingChange false) Reachable.refl)
    (by simp [applyOp, ngOnChanges, resetInteractions, initState, drawImages])

/-! ### C4: at most one image mid-resize -/

/-- The resize-selection invariant: every image marked `isResizing` is the
currently selected one.  It implies that at most one image is marked. -/
def ResizeSelInv (s : CanvasState) : Prop :=
  ∀ j : Nat, j < s.images.length →
    (s.images.getD j default).isResizing = true →
    s.selectedImageIndex = some (j : Int)

/-- The per-operation preconditions under which the resize-selection
invariant is preserved: a pointer-down must find every image at least as
large as the resize handle on both axes and no gesture already in flight
(no image marked resizing), and a `setImages` payload must carry no
`isResizing` flags.  All other operations need nothing. -/
def stepOK (s : CanvasState) : Op → Prop
  | Op.mouseDown _ _ =>
      (∀ img ∈ s.images, s.resizeHandleSize ≤ img.width ∧
        s.resizeHandleSize ≤ img.height) ∧
      ∀ img ∈ s.images, img.isResizing = false
  | Op.setImages l => ∀ img ∈ l, img.isResizing = false
  | _ => True

/-- When the resize handle fits inside an image, the handle bounds are
contained in the body bounds, so the `findIndex` callback can only mark an
image it would also match. -/
theorem inResize_imp_inImage (rh px py : ℚ) (img : DraggableImage)
    (hw : rh ≤ img.width) (hh : rh ≤ img.height)
    (hr : inResizeBounds rh img px py) : inImageBounds img px py := by
  obtain ⟨h1, h2, h3, h4⟩ := hr
  exact ⟨by linarith, h2, by linarith, h4⟩

/-- Behaviour of the marking scan on a clean list whose resize bounds are
contained in the body bounds: the length is preserved; a failed scan leaves
every image unmarked; a successful scan at index `i` leaves every image
other than `i` unmarked. -/
theorem scanMark_clean (rh px py : ℚ) (l : List DraggableImage)
    (hsub : ∀ img ∈ l, inResizeBounds rh img px py → inImageBounds img px py)
    (hclean : ∀ img ∈ l, img.isResizing = false) :
    (scanMark rh px py l).1.length = l.length ∧
    ((scanMark rh px py l).2 = none →
      ∀ img ∈ (scanMark rh px py l).1, img.isResizing = false) ∧
    (∀ i, (scanMark rh px py l).2 = some i →
      i < l.length ∧
      ∀ j, j < l.length → j ≠ i →
        ((scanMark rh px py l).1.getD j default).isResizing = false) := by
  induction l with
  | nil => simp [scanMark]
  | cons img rest ih =>
    have hsubr : ∀ a ∈ rest, inResizeBounds rh a px py → inImageBounds a px py :=
      fun a ha => hsub a (List.mem_cons_of_mem _ ha)
    have hcleanr : ∀ a ∈ rest, a.isResizing = false :=
      fun a ha => hclean a (List.mem_cons_of_mem _ ha)
    obtain ⟨ih1, ih2, ih3⟩ := ih hsubr hcleanr
    by_cases him : inImageBounds img px py
    · have hs : scanMark rh px py (img :: rest) =
          ((if inResizeBounds rh img px py then markResize img else img) :: rest,
           some 0) := by
        rw [scanMark, if_pos him]
      refine ⟨by rw [hs]; simp, ?_, ?_⟩
      · rw [hs]
        intro h
        exact absurd h (by simp)
      · intro i hi
        rw [hs] at hi ⊢
        injection hi with hi
        subst hi
        refine ⟨Nat.succ_pos _, ?_⟩
        intro j hj hne
        cases j with
        | zero => exact absurd rfl hne
        | succ k =>
          have hk : k < rest.length := Nat.lt_of_succ_lt_succ hj
          exact hcleanr _ (listGetD_mem rest k default hk)
    · have hr' : ¬ inResizeBounds rh img px py :=
        fun hr => him (hsub img (List.mem_cons_self _ _) hr)
      have hs : scanMark rh px py (img :: rest) =
          (img :: (scanMark rh px py rest).1,
           (scanMark rh px py rest).2.map (· + 1)) := by
        rw [scanMark, if_neg hr', if_neg him]
      refine ⟨?_, ?_, ?_⟩
      · rw [hs]
        simpa using ih1
      · rw [hs]
        intro h a ha
        have h2 : (scanMark rh px py rest).2 = none := by
          simpa [Option.map_eq_none'] using h
        rcases List.mem_cons.mp ha with rfl | ha'
        · exact hclean a (List.mem_cons_self _ _)
        · exact ih2 h2 a ha'
      · intro i hi
        rw [hs] at hi ⊢
        rcases Option.map_eq_some'.mp hi with ⟨i', hi', rfl⟩
        obtain ⟨hlt, hfa⟩ := ih3 i' hi'
        refine ⟨Nat.succ_lt_succ hlt, ?_⟩
        intro j hj hne
        cases j with
        | zero => exact hclean img (List.mem_cons_self _ _)
        | succ k =>
          have hk : k < rest.length := Nat.lt_of_succ_lt_succ hj
          have hkne : k ≠ i' := fun hkk => hne (by rw [hkk])
          exact hfa k hk hkne

/-- `onMouseDown` is a full no-op when editing is disabled. -/
theorem onMouseDown_noedit (s : CanvasState) (px py : ℚ)
    (hed : s.editing = false) : onMouseDown s px py = s := by
  simp [onMouseDown, hed]

/-- Body-pass shape of `onMouseDown` when the body scan finds an image. -/
theorem onMouseDown_body_some (s : CanvasState) (px py : ℚ) (i : Nat)
    (hed : s.editing = true)
    (hclose : findCloseIdx s.closeButtonSize px py s.images = none)
    (hscan : (scanMark s.resizeHandleSize px py s.images).2 = some i) :
    onMouseDown s px py =
      { s with images := (scanMark s.resizeHandleSize px py s.images).1,
               selectedImageIndex := some (i : Int),
               offsetX := px -
                 ((scanMark s.resizeHandleSize px py s.images).1.getD i default).x,
               offsetY := py -
                 ((scanMark s.resizeHandleSize px py s.images).1.getD i default).y,
               isDragging := true } := by
  simp [onMouseDown, hed, hclose, hscan]

/-- Body-pass shape of `onMouseDown` when the body scan finds nothing: the
`findIndex` result `-1` is stored in the selection. -/
theorem onMouseDown_body_none (s : CanvasState) (px py : ℚ)
    (hed : s.editing = true)
    (hclose : findCloseIdx s.closeButtonSize px py s.images = none)
    (hscan : (scanMark s.resizeHandleSize px py s.images).2 = none) :
    onMouseDown s px py =
      { s with images := (scanMark s.resizeHandleSize px py s.images).1,
               selectedImageIndex := some (-1) } := by
  simp [onMouseDown, hed, hclose, hscan]

/-- `onMouseMove` with no selection is a full no-op. -/
theorem onMouseMove_none (s : CanvasState) (px py : ℚ)
    (hsel : s.selectedImageIndex = none) : onMouseMove s px py = s := by
  simp [onMouseMove, hsel]

/-- `onMouseMove` with a selection that indexes no image (the stored `-1`,
or an index stale after `setImages`) throws before mutating anything. -/
theorem onMouseMove_invalid (s : CanvasState) (px py : ℚ) (i : Int)
    (hsel : s.selectedImageIndex = some i)
    (hv : ¬ (0 ≤ i ∧ i.toNat < s.images.length)) :
    onMouseMove s px py = s := by
  unfold onMouseMove
  rw [hsel]
  simp only
  rw [if_neg hv]

/-- `onMouseUp` with no selection only re-nulls the cleared fields. -/
theorem onMouseUp_none (s : CanvasState)
    (hsel : s.selectedImageIndex = none) :
    onMouseUp s =
      { s with selectedImageIndex := none, isDragging := false } := by
  unfold onMouseUp
  rw [hsel]

/-- `onMouseUp` with a valid selection clears that image's resize flag and
then the selection and drag flag. -/
theorem onMouseUp_valid (s : CanvasState) (i : Int)
    (hsel : s.selectedImageIndex = some i)
    (hv : 0 ≤ i ∧ i.toNat < s.images.length) :
    onMouseUp s =
      { s with images := s.images.set i.toNat
                 { s.images.getD i.toNat default with isResizing := false },
               selectedImageIndex := none, isDragging := false } := by
  unfold onMouseUp
  rw [hsel]
  simp only
  rw [if_pos hv]

/-- `onMouseUp` with an invalid selection throws before mutating. -/
theorem onMouseUp_invalid (s : CanvasState) (i : Int)
    (hsel : s.selectedImageIndex = some i)
    (hv : ¬ (0 ≤ i ∧ i.toNat < s.images.length)) :
    onMouseUp s = s := by
  unfold onMouseUp
  rw [hsel]
  simp only
  rw [if_neg hv]

/-- A pointer-move never changes any image's `isResizing` flag. -/
theorem onMouseMove_flags (s : CanvasState) (px py : ℚ) (j : Nat)
    (hj : j < s.images.length) :
    ((onMouseMove s px py).images.getD j default).isResizing =
      (s.images.getD j default).isResizing := by
  cases hsel : s.selectedImageIndex with
  | none => rw [onMouseMove_none s px py hsel]
  | some i =>
    by_cases hv : 0 ≤ i ∧ i.toNat < s.images.length
    · by_cases hj' : j = i.toNat
      · subst hj'
        cases hres : (s.images.getD i.toNat default).isResizing with
        | true =>
          cases hsh : s.isShiftPressed with
          | true =>
            rw [onMouseMove_resize_shift s px py i hsel hv hres hsh,
                listGetD_set_self _ _ _ _ hv.2]
            exact hres
          | false =>
            rw [onMouseMove_resize_noshift s px py i hsel hv hres hsh,
                listGetD_set_self _ _ _ _ hv.2]
            exact hres
        | false =>
          cases hdrag : s.isDragging with
          | true =>
            rw [onMouseMove_drag s px py i hsel hv hres hdrag,
                listGetD_set_self _ _ _ _ hv.2]
            exact hres
          | false =>
            rw [onMouseMove_idle s px py i hsel hv hres hdrag]
            exact hres
      · cases hres : (s.images.getD i.toNat default).isResizing with
        | true =>
          cases hsh : s.isShiftPressed with
          | true =>
            rw [onMouseMove_resize_shift s px py i hsel hv hres hsh,
                listGetD_set_ne _ _ _ _ _ hj']
          | false =>
            rw [onMouseMove_resize_noshift s px py i hsel hv hres hsh,
                listGetD_set_ne _ _ _ _ _ hj']
        | false =>
          cases hdrag : s.isDragging with
          | true =>
            rw [onMouseMove_drag s px py i hsel hv hres hdrag,
                listGetD_set_ne _ _ _ _ _ hj']
          | false =>
            rw [onMouseMove_idle s px py i hsel hv hres hdrag]
    · rw [onMouseMove_invalid s px py i hsel hv]

/-- Projections of `onMouseMove_preserves` used below. -/
theorem onMouseMove_selEq (s : CanvasState) (px py : ℚ) :
    (onMouseMove s px py).selectedImageIndex = s.selectedImageIndex :=
  (onMouseMove_preserves s px py).1

/-- The length component of `onMouseMove_preserves`. -/
theorem onMouseMove_lenEq (s : CanvasState) (px py : ℚ) :
    (onMouseMove s px py).images.length = s.images.length :=
  (onMouseMove_preserves s px py).2.2.2.2.2.2.2.2.2.2.2.2

/-- `ResizeSelInv` transfers along equal image lists and selections. -/
theorem resizeSelInv_congr (s s' : CanvasState)
    (himg : s'.images = s.images)
    (hsel : s'.selectedImageIndex = s.selectedImageIndex)
    (h : ResizeSelInv s) : ResizeSelInv s' := by
  intro j hj hr
  rw [himg] at hj hr
  rw [hsel]
  exact h j hj hr

/-- Preservation of the resize-selection invariant by every operation
under its `stepOK` precondition. -/
theorem resizeSelInv_applyOp (s : CanvasState) (op : Op)
    (hinv : ResizeSelInv s) (hok : stepOK s op) :
    ResizeSelInv (applyOp s op) := by
  cases op with
  | init =>
    exact resizeSelInv_congr s _ (by simp [applyOp, ngOnInit])
      (by simp [applyOp, ngOnInit]) hinv
  | editingChange b =>
    intro j hj hr
    exfalso
    have himg : (applyOp s (Op.editingChange b)).images =
        s.images.map (fun a => { a with isResizing := false }) := by
      simp [applyOp, ngOnChanges, resetInteractions]
    rw [himg] at hj hr
    rw [List.length_map] at hj
    rw [listGetD_map s.images j default default _ hj] at hr
    simp at hr
  | sizeChange w hgt =>
    exact resizeSelInv_congr s _ rfl rfl hinv
  | dropSync dt =>
    rw [show applyOp s (Op.dropSync dt) = (onDropSync s dt).1 from rfl,
        onDropSync_fst]
    exact hinv
  | dropComplete w0 h0 =>
    intro j hj hr
    have himg : (applyOp s (Op.dropComplete w0 h0)).images =
        s.images ++ [initialPlacement s.width s.height w0 h0] := by
      simp [applyOp, dropComplete]
    have hselp : (applyOp s (Op.dropComplete w0 h0)).selectedImageIndex =
        s.selectedImageIndex := by
      simp [applyOp, dropComplete]
    rw [himg] at hj hr
    rw [List.length_append, List.length_singleton] at hj
    rw [hselp]
    rcases Nat.lt_succ_iff_lt_or_eq.mp hj with hlt | heq
    · rw [listGetD_append_left _ _ _ _ hlt] at hr
      exact hinv j hlt hr
    · exfalso
      subst heq
      rw [listGetD_append_last] at hr
      simp [initialPlacement] at hr
  | mouseDown px py =>
    obtain ⟨hfit, hcln⟩ := hok
    cases hed : s.editing with
    | false =>
      rw [show applyOp s (Op.mouseDown px py) = onMouseDown s px py from rfl,
          onMouseDown_noedit s px py hed]
      exact hinv
    | true =>
      have hsub : ∀ a ∈ s.images,
          inResizeBounds s.resizeHandleSize a px py → inImageBounds a px py :=
        fun a ha hr =>
          inResize_imp_inImage _ px py a (hfit a ha).1 (hfit a ha).2 hr
      obtain ⟨hc1, hc2, hc3⟩ :=
        scanMark_clean s.resizeHandleSize px py s.images hsub hcln
      cases hclose : findCloseIdx s.closeButtonSize px py s.images with
      | some k =>
        intro j hj hr
        exfalso
        rw [show applyOp s (Op.mouseDown px py) = onMouseDown s px py from rfl,
            onMouseDown_close s px py k hed hclose] at hj hr
        simp only [emitImagesChange_images, drawImages_images] at hj hr
        have hj' : j < (s.images.eraseIdx k).length := hj
        have hr' : ((s.images.eraseIdx k).getD j default).isResizing = true := hr
        have hmem := listGetD_mem _ j default hj'
        rw [hcln _ (List.eraseIdx_subset _ _ hmem)] at hr'
        exact Bool.noConfusion hr'
      | none =>
        cases hscan : (scanMark s.resizeHandleSize px py s.images).2 with
        | some i =>
          intro j hj hr
          rw [show applyOp s (Op.mouseDown px py) = onMouseDown s px py from rfl,
              onMouseDown_body_some s px py i hed hclose hscan] at hj hr ⊢
          have hj' : j < (scanMark s.resizeHandleSize px py s.images).1.length := hj
          have hr' : (((scanMark s.resizeHandleSize px py s.images).1).getD j
              default).isResizing = true := hr
          by_cases hji : j = i
          · subst hji
            rfl
          · exfalso
            obtain ⟨hilen, hother⟩ := hc3 i hscan
            have hjlen : j < s.images.length := by rw [hc1] at hj'; exact hj'
            rw [hother j hjlen hji] at hr'
            exact Bool.noConfusion hr'
        | none =>
          intro j hj hr
          exfalso
          rw [show applyOp s (Op.mouseDown px py) = onMouseDown s px py from rfl,
              onMouseDown_body_none s px py hed hclose hscan] at hj hr
          have hj' : j < (scanMark s.resizeHandleSize px py s.images).1.length := hj
          have hr' : (((scanMark s.resizeHandleSize px py s.images).1).getD j
              default).isResizing = true := hr
          have hmem := listGetD_mem _ j default hj'
          rw [hc2 hscan _ hmem] at hr'
          exact Bool.noConfusion hr'
  | mouseMove px py =>
    intro j hj hr
    rw [show applyOp s (Op.mouseMove px py) = onMouseMove s px py from rfl]
      at hj hr ⊢
    rw [onMouseMove_lenEq] at hj
    rw [onMouseMove_flags s px py j hj] at hr
    rw [onMouseMove_selEq]
    exact hinv j hj hr
  | mouseUp =>
    intro j hj hr
    rw [show applyOp s Op.mouseUp = onMouseUp s from rfl] at hj hr ⊢
    cases hsel : s.selectedImageIndex with
    | none =>
      exfalso
      rw [onMouseUp_none s hsel] at hj hr
      have hj' : j < s.images.length := hj
      have hr' : (s.images.getD j default).isResizing = true := hr
      have hsome := hinv j hj' hr'
      rw [hsel] at hsome
      exact Option.noConfusion hsome
    | some i =>
      by_cases hv : 0 ≤ i ∧ i.toNat < s.images.length
      · exfalso
        rw [onMouseUp_valid s i hsel hv] at hj hr
        by_cases hji : j = i.toNat
        · have hr' : ((s.images.set i.toNat
              { s.images.getD i.toNat default with isResizing := false }).getD
              i.toNat default).isResizing = true := by
            rw [hji] at hr
            exact hr
          rw [listGetD_set_self _ _ _ _ hv.2] at hr'
          exact Bool.noConfusion hr'
        · have hr' : ((s.images.set i.toNat
              { s.images.getD i.toNat default with isResizing := false }).getD j
              default).isResizing = true := hr
          rw [listGetD_set_ne _ _ _ _ _ hji] at hr'
          have hj' : j < (s.images.set i.toNat
              { s.images.getD i.toNat default with isResizing := false }).length := hj
          have hjlen : j < s.images.length := by simpa using hj'
          have hsome := hinv j hjlen hr'
          rw [hsel] at hsome
          have := Option.some.inj hsome
          apply hji
          omega
      · rw [onMouseUp_invalid s i hsel hv] at hj hr ⊢
        exact hinv j hj hr
  | shiftDown => exact resizeSelInv_congr s _ rfl rfl hinv
  | shiftUp => exact resizeSelInv_congr s _ rfl rfl hinv
  | setImages l =>
    intro j hj hr
    exfalso
    have himg : (applyOp s (Op.setImages l)).images = l := by
      simp [applyOp, setImages]
    rw [himg] at hj hr
    rw [hok _ (listGetD_mem l j default hj)] at hr
    exact Bool.noConfusion hr

/-- The event trace refuting C4: after `setImages` installs a 5 × 5 image —
smaller than the default 10-unit resize handle — and a 50 × 50 image, a
press at (96, 96) lies in the small image's resize bounds but outside its
body bounds, so the scan marks it and moves on, storing the `findIndex`
miss `-1` in the selection; the following release reads `images[-1]` and
throws before clearing anything; a second press on the large image's
handle then marks it too, leaving two images mid-resize. -/
def C4ops : List Op :=
  [Op.init,
   Op.setImages [{ x := 100, y := 100, width := 5, height := 5 },
                 { x := 400, y := 400, width := 50, height := 50 }],
   Op.mouseDown 96 96, Op.mouseUp, Op.mouseDown 445 445]

/-- C4 counterexample: after `C4ops` both registry entries have
`isResizing = true` simultaneously, and the first is marked while not
selected. -/
theorem C4_counterexample :
    (runOps (initState 800 600 10 20) C4ops).images.length = 2 ∧
    ((runOps (initState 800 600 10 20) C4ops).images.getD 0
      default).isResizing = true ∧
    ((runOps (initState 800 600 10 20) C4ops).images.getD 1
      default).isResizing = true ∧
    (runOps (initState 800 600 10 20) C4ops).selectedImageIndex = some 1 := by
  norm_num [C4ops, runOps, applyOp, initState, ngOnInit, setImages, drawImages,
    onMouseDown, findCloseIdx, inCloseBounds, scanMark, inImageBounds,
    inResizeBounds, markResize, onMouseUp, List.getD_eq_getElem?_getD]

/-- C4 (amended): provided every pointer-down happens with no gesture in
flight (no image already marked resizing) and with the resize handle no
larger than any image on either axis, and every `setImages` payload
carries no `isResizing` flags, each operation preserves the invariant that
any image marked resizing is the selected one — hence at most one entry
has `isResizing = true`; without those provisos the hit-test pass can mark
an image it does not select and a later press marks a second one (see
`C4_counterexample`). -/
theorem C4_at_most_one (s : CanvasState) (op : Op)
    (hinv : ResizeSelInv s) (hok : stepOK s op) :
    ResizeSelInv (applyOp s op) ∧
    ∀ j k : Nat, j < (applyOp s op).images.length →
      k < (applyOp s op).images.length →
      ((applyOp s op).images.getD j default).isResizing = true →
      ((applyOp s op).images.getD k default).isResizing = true → j = k := by
  have hmain := resizeSelInv_applyOp s op hinv hok
  refine ⟨hmain, fun j k hj hk hrj hrk => ?_⟩
  have h1 := hmain j hj hrj
  have h2 := hmain k hk hrk
  rw [h1] at h2
  have := Option.some.inj h2
  omega

/-- Closed instance of `C4_at_most_one`: a pointer-down on a freshly
initialised (empty) component, discharging the invariant and precondition
hypotheses. -/
theorem C4_at_most_one_witness :
    ResizeSelInv (applyOp (ngOnInit (initState 800 600 10 20))
      (Op.mouseDown 1 2)) ∧
    ∀ j k : Nat,
      j < (applyOp (ngOnInit (initState 800 600 10 20))
        (Op.mouseDown 1 2)).images.length →
      k < (applyOp (ngOnInit (initState 800 600 10 20))
        (Op.mouseDown 1 2)).images.length →
      ((applyOp (ngOnInit (initState 800 600 10 20))
        (Op.mouseDown 1 2)).images.getD j default).isResizing = true →
      ((applyOp (ngOnInit (initState 800 600 10 20))
        (Op.mouseDown 1 2)).images.getD k default).isResizing = true → j = k :=
  C4_at_most_one (ngOnInit (initState 800 600 10 20)) (Op.mouseDown 1 2)
    (by intro j hj hr; simp [ngOnInit, initState, drawImages] at hj)
    (by constructor <;> intro img hmem <;>
        simp [ngOnInit, initState, drawImages] at hmem)
